import Mathlib

/-!
Verification of the cat-box math + collision core (src/vec2.rs,
src/sprite/physics.rs, src/objects/sprite.rs) against its specification.

Modelling conventions:
* Rust `i32` arithmetic is modelled by `Int`.  The quantities involved
  (screen coordinates, image sizes) stay far below the `i32` range, and the
  spec declares these operations total, so wrap-around is not modelled.
* Rust `f32` components are modelled exactly by `ℚ`: every operation the
  claims mention (negate, add, the definitional subtraction, truncation
  toward zero) is exact-value-preserving, so the rational model reflects the
  float code faithfully for these properties.
* `u32` width/height are modelled by `Nat`.
-/

namespace CatBox

/-! ### Vector types (src/vec2.rs) -/

/-- `Vec2` from src/vec2.rs: a pair of `f32`s, modelled by exact rationals. -/
structure Vec2 where
  x : ℚ
  y : ℚ
deriving DecidableEq

/-- `Vec2Int` from src/vec2.rs: a pair of `i32`s. -/
structure Vec2Int where
  x : Int
  y : Int
deriving DecidableEq

/-- `impl Mul<f32> for Vec2`: componentwise scalar multiplication. -/
def Vec2.mul (v : Vec2) (rhs : ℚ) : Vec2 :=
  ⟨v.x * rhs, v.y * rhs⟩

/-- `impl Neg for Vec2`: `self * -1.0`. -/
def Vec2.neg (v : Vec2) : Vec2 :=
  v.mul (-1)

/-- `impl Add for Vec2`: componentwise addition. -/
def Vec2.add (a b : Vec2) : Vec2 :=
  ⟨a.x + b.x, a.y + b.y⟩

/-- `impl Sub for Vec2`: `-(-self + rhs)`. -/
def Vec2.sub (a b : Vec2) : Vec2 :=
  (a.neg.add b).neg

instance : Neg Vec2 := ⟨Vec2.neg⟩

instance : Add Vec2 := ⟨Vec2.add⟩

instance : Sub Vec2 := ⟨Vec2.sub⟩

/-- `impl Mul<i32> for Vec2Int`: componentwise scalar multiplication. -/
def Vec2Int.mul (v : Vec2Int) (rhs : Int) : Vec2Int :=
  ⟨v.x * rhs, v.y * rhs⟩

/-- `impl Neg for Vec2Int`: `self * -1`. -/
def Vec2Int.neg (v : Vec2Int) : Vec2Int :=
  v.mul (-1)

/-- `impl Add for Vec2Int`: componentwise addition. -/
def Vec2Int.add (a b : Vec2Int) : Vec2Int :=
  ⟨a.x + b.x, a.y + b.y⟩

/-- `impl Sub for Vec2Int`: `-(-self + rhs)`. -/
def Vec2Int.sub (a b : Vec2Int) : Vec2Int :=
  (a.neg.add b).neg

instance : Neg Vec2Int := ⟨Vec2Int.neg⟩

instance : Add Vec2Int := ⟨Vec2Int.add⟩

instance : Sub Vec2Int := ⟨Vec2Int.sub⟩

/-- Rust `as i32` on a float value: truncation toward zero (the saturating
behaviour at the `i32` bounds is outside the range of interest here). -/
def truncTowardZero (q : ℚ) : Int :=
  if 0 ≤ q then ⌊q⌋ else ⌈q⌉

/-- `Vec2::rounded` from src/vec2.rs: converts each component with `as i32`,
i.e. truncation toward zero. -/
def Vec2.rounded (v : Vec2) : Vec2Int :=
  ⟨truncTowardZero v.x, truncTowardZero v.y⟩

/-! ### Rectangles and sprites (src/objects/sprite.rs) -/

/-- Modelled from the spec: the axis-aligned rectangle type of the underlying
windowing library (`sdl2::rect::Rect`), whose source is not part of this
repository.  Per spec §3 it stores an origin (`x`, `y`) and a fixed
width/height; `x`/`y` are `i32`, `w`/`h` are the `u32` image dimensions. -/
structure Rect where
  x : Int
  y : Int
  w : Nat
  h : Nat
deriving DecidableEq

/-- `Rect::width()`: the stored width (a `u32`). -/
def Rect.width (r : Rect) : Nat := r.w

/-- `Rect::height()`: the stored height (a `u32`). -/
def Rect.height (r : Rect) : Nat := r.h

/-- Modelled from the spec: the library rectangle's `center()` — origin plus
half the size on each axis (integer halving).  Spec §3: the rectangle's
center, not its corner, is the semantic position. -/
def Rect.center (r : Rect) : Vec2Int :=
  ⟨r.x + ((r.w / 2 : Nat) : Int), r.y + ((r.h / 2 : Nat) : Int)⟩

/-- Modelled from the spec: the library rectangle's `center_on(p)` — move the
origin so that the center lands on `p` (spec §4.3: re-centers directly, no
sign inversion). -/
def Rect.center_on (r : Rect) (p : Vec2Int) : Rect :=
  { r with x := p.x - ((r.w / 2 : Nat) : Int), y := p.y - ((r.h / 2 : Nat) : Int) }

/-- Exact axis-aligned rectangle overlap, inclusive of boundary contact, as a
proposition: overlap in both the x and the y extents. -/
def Rect.overlap (a b : Rect) : Prop :=
  a.x ≤ b.x + (b.w : Int) ∧ b.x ≤ a.x + (a.w : Int) ∧
  a.y ≤ b.y + (b.h : Int) ∧ b.y ≤ a.y + (a.h : Int)

instance : DecidableRel Rect.overlap := fun a b => by
  unfold Rect.overlap
  infer_instance

/-- Modelled from the spec: the library rectangle's exact intersection test
used by the collision code (`Rect::has_intersection`), whose source is not in
this repository.  Spec §4.2: true axis-aligned rectangle intersection,
treating touching edges as colliding (inclusive of boundary contact). -/
def Rect.has_intersection (a b : Rect) : Bool :=
  decide (Rect.overlap a b)

/-- `Sprite` from src/objects/sprite.rs: the position rectangle plus the
drawing angle (the image surface is I/O-only state and carries no geometry
beyond the rectangle, so it is not modelled). -/
structure Sprite where
  rect : Rect
  angle : ℚ
deriving DecidableEq

/-- `Sprite::position()`: the center of the sprite's rectangle. -/
def Sprite.position (s : Sprite) : Vec2Int :=
  s.rect.center

/-- `Sprite::translate(position)` from src/objects/sprite.rs:
`new_x = rect.x + position.x`, `new_y = rect.y - position.y`. -/
def Sprite.translate (s : Sprite) (position : Vec2Int) : Sprite :=
  { s with rect := { s.rect with
      x := s.rect.x + position.x,
      y := s.rect.y - position.y } }

/-- `Sprite::set_position(position)` from src/objects/sprite.rs:
`rect.center_on((position.x, position.y))`. -/
def Sprite.set_position (s : Sprite) (position : Vec2Int) : Sprite :=
  { s with rect := s.rect.center_on position }

/-! ### Collision detection (src/sprite/physics.rs) -/

/-- `collided` from src/sprite/physics.rs: broad-phase radius pre-filter on
each axis, then the exact rectangle intersection test. -/
def collided (sprite1 sprite2 : Sprite) : Bool :=
  let coll_rad1 : Int := (max sprite1.rect.width sprite1.rect.height : Nat)
  let coll_rad2 : Int := (max sprite2.rect.width sprite2.rect.height : Nat)
  let collision_radius := coll_rad1 + coll_rad2
  let collision_diameter := collision_radius * collision_radius
  let diff_x := sprite1.position.x - sprite2.position.x
  let diff_x2 := diff_x * diff_x
  if diff_x2 > collision_diameter then false
  else
    let diff_y := sprite1.position.y - sprite2.position.y
    let diff_y2 := diff_y * diff_y
    if diff_y2 > collision_diameter then false
    else sprite1.rect.has_intersection sprite2.rect

/-- `check_for_collision` from src/sprite/physics.rs. -/
def check_for_collision (sprite1 sprite2 : Sprite) : Bool :=
  collided sprite1 sprite2

/-- `check_for_collision_with_point` from src/sprite/physics.rs: one radius
threshold, two axis pre-filters, then `true` unconditionally. -/
def check_for_collision_with_point (sprite1 : Sprite) (point : Vec2Int) : Bool :=
  let coll_rad : Int := (max sprite1.rect.width sprite1.rect.height : Nat)
  let coll2 := coll_rad * coll_rad
  let diff_x := sprite1.position.x - point.x
  let diff_x2 := diff_x * diff_x
  if diff_x2 > coll2 then false
  else
    let diff_y := sprite1.position.y - point.y
    let diff_y2 := diff_y * diff_y
    if diff_y2 > coll2 then false
    else true

/-- The pairwise collision check as the specification words it (for the
refinement comparison with `collided`): per-sprite collision radius
`max(width, height)`, threshold `(radius_a + radius_b) ^ 2`, `false` when the
squared x- or y-distance between the centers exceeds the threshold, and the
exact axis-aligned rectangle intersection test otherwise. -/
def pairwise_check_per_claim (a b : Sprite) : Bool :=
  let radius_a : Int := (max a.rect.width a.rect.height : Nat)
  let radius_b : Int := (max b.rect.width b.rect.height : Nat)
  let threshold := (radius_a + radius_b) ^ 2
  let dx2 := (a.position.x - b.position.x) ^ 2
  let dy2 := (a.position.y - b.position.y) ^ 2
  if dx2 > threshold ∨ dy2 > threshold then false
  else a.rect.has_intersection b.rect

/-- `SpriteCollection` from src/objects/sprite.rs: a thin wrapper around a
vector of sprites. -/
structure SpriteCollection where
  v : List Sprite
deriving DecidableEq

/-- `SpriteCollection::inner()`: the underlying vector. -/
def SpriteCollection.inner (c : SpriteCollection) : List Sprite :=
  c.v

/-- `check_for_collision_with_collection` from src/sprite/physics.rs:
filter the collection by the pairwise check against `sprite`. -/
def check_for_collision_with_collection (sprite : Sprite) (list : SpriteCollection) :
    List Sprite :=
  list.inner.filter (fun s => check_for_collision sprite s)

/-- Modelled from the spec: Rust's `Vec::remove(index)`, which the repository
calls in `SpriteCollection::remove` but whose source is not in the
repository.  Per the repo doc comment (src/objects/sprite.rs) it removes and
returns the element at `index`, shifting all later elements left, and panics
if the index is out of bounds; the panic is modelled as `none`. -/
def listRemoveAt : List Sprite → Nat → Option (Sprite × List Sprite)
  | [], _ => none
  | x :: xs, 0 => some (x, xs)
  | x :: xs, n + 1 =>
    match listRemoveAt xs n with
    | none => none
    | some (y, ys) => some (y, x :: ys)

/-- `SpriteCollection::remove(index)` from src/objects/sprite.rs:
`self.v.remove(index)`.  The returned pair is the removed sprite together
with the collection state after the call; `none` models the panic. -/
def SpriteCollection.remove (c : SpriteCollection) (index : Nat) :
    Option (Sprite × SpriteCollection) :=
  match listRemoveAt c.v index with
  | none => none
  | some (x, l) => some (x, ⟨l⟩)

/-- `SpriteCollection::pop()` from src/objects/sprite.rs: `self.v.pop()`.
Modelled from the spec: Rust's `Vec::pop` (not in the repository) removes and
returns the last element, or returns `None` when the vector is empty.  The
returned pair is the popped sprite together with the collection state after
the call. -/
def SpriteCollection.pop (c : SpriteCollection) : Option (Sprite × SpriteCollection) :=
  match c.v.getLast? with
  | none => none
  | some x => some (x, ⟨c.v.dropLast⟩)

/-- A concrete sprite used by witness statements. -/
def sampleSprite0 : Sprite :=
  ⟨⟨0, 0, 10, 10⟩, 0⟩

/-- A second concrete sprite used by witness statements. -/
def sampleSprite1 : Sprite :=
  ⟨⟨5, 5, 10, 10⟩, 0⟩

/-- A third concrete sprite used by witness statements. -/
def sampleSprite2 : Sprite :=
  ⟨⟨100, 100, 4, 6⟩, 0⟩

/-! ### Helper lemmas about the broad-phase pre-filter -/

/-- On one axis, if two extents `[x1, x1+w1]` and `[x2, x2+w2]` overlap
(inclusively), then the squared distance between their integer-halving
midpoints is at most `R * R` for any `R` at least `w1 + w2`. -/
lemma axis_diff_sq_le (x1 x2 : Int) (w1 w2 : Nat) (R : Int)
    (hw : (w1 : Int) + (w2 : Int) ≤ R)
    (h1 : x1 ≤ x2 + (w2 : Int)) (h2 : x2 ≤ x1 + (w1 : Int)) :
    ((x1 + ((w1 / 2 : Nat) : Int)) - (x2 + ((w2 / 2 : Nat) : Int))) *
      ((x1 + ((w1 / 2 : Nat) : Int)) - (x2 + ((w2 / 2 : Nat) : Int))) ≤ R * R := by
  set d := (x1 + ((w1 / 2 : Nat) : Int)) - (x2 + ((w2 / 2 : Nat) : Int)) with hd
  have hub : d ≤ R := by omega
  have hlb : -R ≤ d := by omega
  calc d * d = |d| * |d| := (abs_mul_abs_self d).symm
    _ ≤ R * R := mul_self_le_mul_self (abs_nonneg d) (abs_le.mpr ⟨hlb, hub⟩)

/-- If the rectangles of two sprites overlap, the x-axis pre-filter of
`collided` does not reject the pair. -/
lemma overlap_prefilter_x (s1 s2 : Sprite) (hov : Rect.overlap s1.rect s2.rect) :
    (s1.position.x - s2.position.x) * (s1.position.x - s2.position.x) ≤
      (((max s1.rect.width s1.rect.height : Nat) : Int) +
        ((max s2.rect.width s2.rect.height : Nat) : Int)) *
      (((max s1.rect.width s1.rect.height : Nat) : Int) +
        ((max s2.rect.width s2.rect.height : Nat) : Int)) := by
  obtain ⟨hx1, hx2, -, -⟩ := hov
  have hm1 : s1.rect.w ≤ max s1.rect.width s1.rect.height := Nat.le_max_left _ _
  have hm2 : s2.rect.w ≤ max s2.rect.width s2.rect.height := Nat.le_max_left _ _
  exact axis_diff_sq_le s1.rect.x s2.rect.x s1.rect.w s2.rect.w _ (by omega) hx1 hx2

/-- If the rectangles of two sprites overlap, the y-axis pre-filter of
`collided` does not reject the pair. -/
lemma overlap_prefilter_y (s1 s2 : Sprite) (hov : Rect.overlap s1.rect s2.rect) :
    (s1.position.y - s2.position.y) * (s1.position.y - s2.position.y) ≤
      (((max s1.rect.width s1.rect.height : Nat) : Int) +
        ((max s2.rect.width s2.rect.height : Nat) : Int)) *
      (((max s1.rect.width s1.rect.height : Nat) : Int) +
        ((max s2.rect.width s2.rect.height : Nat) : Int)) := by
  obtain ⟨-, -, hy1, hy2⟩ := hov
  have hm1 : s1.rect.h ≤ max s1.rect.width s1.rect.height := Nat.le_max_right _ _
  have hm2 : s2.rect.h ≤ max s2.rect.width s2.rect.height := Nat.le_max_right _ _
  exact axis_diff_sq_le s1.rect.y s2.rect.y s1.rect.h s2.rect.h _ (by omega) hy1 hy2

/-- The broad-phase pre-filter of `collided` never rejects a truly
overlapping pair, so `collided` decides exactly rectangle overlap. -/
lemma collided_iff_overlap (s1 s2 : Sprite) :
    collided s1 s2 = true ↔ Rect.overlap s1.rect s2.rect := by
  simp only [collided]
  split_ifs with h1 h2
  · simp only [Bool.false_eq_true, false_iff]
    exact fun hov => absurd (overlap_prefilter_x s1 s2 hov) (not_le.mpr h1)
  · simp only [Bool.false_eq_true, false_iff]
    exact fun hov => absurd (overlap_prefilter_y s1 s2 hov) (not_le.mpr h2)
  · simp only [Rect.has_intersection, decide_eq_true_eq]

/-! ### Theorems for the pure vector claims -/

/-- C4: for all vectors `a` and `b` of the same type (both `Vec2` or both
`Vec2Int`), `a - b` equals `-(-a + b)` exactly.  In the source, subtraction
is literally defined as negate-add-negate, so the identity is definitional
for both the integer and the (exact-value) float type. -/
theorem C4_sub_eq_neg_negadd :
    (∀ a b : Vec2, a - b = -(-a + b)) ∧ (∀ a b : Vec2Int, a - b = -(-a + b)) :=
  ⟨fun _ _ => rfl, fun _ _ => rfl⟩

/-- C8: `Vec2.rounded` truncates each component toward zero (floor for
nonnegative components, ceiling for nonpositive ones — not round-to-nearest),
and in particular `Vec2 (29/10) (-29/10)` rounds to `Vec2Int 2 (-2)`. -/
theorem C8_rounded_truncates_toward_zero :
    (∀ v : Vec2,
      (0 ≤ v.x → (v.rounded).x = ⌊v.x⌋) ∧ (v.x ≤ 0 → (v.rounded).x = ⌈v.x⌉) ∧
      (0 ≤ v.y → (v.rounded).y = ⌊v.y⌋) ∧ (v.y ≤ 0 → (v.rounded).y = ⌈v.y⌉)) ∧
    (Vec2.mk (29/10) (-29/10)).rounded = Vec2Int.mk 2 (-2) := by
  constructor
  · intro v
    refine ⟨fun hx => ?_, fun hx => ?_, fun hy => ?_, fun hy => ?_⟩
    · simp [Vec2.rounded, truncTowardZero, hx]
    · rcases lt_or_eq_of_le hx with h | h
      · simp [Vec2.rounded, truncTowardZero, not_le.mpr h]
      · simp [Vec2.rounded, truncTowardZero, h]
    · simp [Vec2.rounded, truncTowardZero, hy]
    · rcases lt_or_eq_of_le hy with h | h
      · simp [Vec2.rounded, truncTowardZero, not_le.mpr h]
      · simp [Vec2.rounded, truncTowardZero, h]
  · have hx : truncTowardZero (29/10) = 2 := by
      have h0 : (0 : ℚ) ≤ 29/10 := by norm_num
      have : ⌊(29/10 : ℚ)⌋ = 2 := by
        rw [Int.floor_eq_iff]
        norm_num
      simp [truncTowardZero, h0, this]
    have hy : truncTowardZero (-29/10) = -2 := by
      have h0 : ¬ (0 : ℚ) ≤ -29/10 := by norm_num
      have : ⌈(-29/10 : ℚ)⌉ = -2 := by
        rw [Int.ceil_eq_iff]
        norm_num
      simp [truncTowardZero, h0, this]
    simp [Vec2.rounded, hx, hy]

/-- Witness for C8: the truncation theorem applied at the concrete vector
`(29/10, -29/10)`, discharging the sign hypotheses there. -/
theorem C8_rounded_truncates_toward_zero_witness :
    (0 : ℚ) ≤ 29/10 ∧ (-29/10 : ℚ) ≤ 0 ∧
    (Vec2.mk (29/10) (-29/10)).rounded.x = ⌊(29/10 : ℚ)⌋ ∧
    (Vec2.mk (29/10) (-29/10)).rounded.y = ⌈(-29/10 : ℚ)⌉ := by
  have h := C8_rounded_truncates_toward_zero.1 (Vec2.mk (29/10) (-29/10))
  have h0 : (0 : ℚ) ≤ 29/10 := by norm_num
  have h1 : (-29/10 : ℚ) ≤ 0 := by norm_num
  exact ⟨h0, h1, h.1 h0, h.2.2.2 h1⟩

/-! ### Theorems for the collision claims -/

/-- C1: the pairwise collision check computes each sprite's collision radius
as `max(width, height)`, sets the threshold to the square of the radius sum,
rejects (returns `false`, skipping the exact test) when the squared x- or
y-distance between centers exceeds the threshold, and otherwise returns the
exact axis-aligned rectangle intersection test. -/
theorem C1_pairwise_check_algorithm :
    ∀ a b : Sprite, check_for_collision a b = pairwise_check_per_claim a b := by
  intro a b
  simp only [check_for_collision, collided, pairwise_check_per_claim, pow_two]
  split_ifs <;> tauto

/-- C2: `check_for_collision` returns `true` exactly when the two sprites'
axis-aligned rectangles overlap, rectangles that merely touch along an edge
counting as overlapping. -/
theorem C2_collision_iff_rect_overlap :
    ∀ a b : Sprite, check_for_collision a b = true ↔ Rect.overlap a.rect b.rect := by
  intro a b
  exact collided_iff_overlap a b

/-- C3: `translate` adds `delta.x` to the stored x-origin and subtracts
`delta.y` from the stored y-origin (so `delta = (3, -4)` moves the stored
origin by `(+3, +4)`), while `set_position` re-centers the rectangle on the
given point directly, with no sign inversion on either component. -/
theorem C3_translate_and_set_position :
    ∀ (s : Sprite) (d p : Vec2Int),
      (s.translate d).rect.x = s.rect.x + d.x ∧
      (s.translate d).rect.y = s.rect.y - d.y ∧
      (s.translate (Vec2Int.mk 3 (-4))).rect.x = s.rect.x + 3 ∧
      (s.translate (Vec2Int.mk 3 (-4))).rect.y = s.rect.y + 4 ∧
      (s.set_position p).rect.x = p.x - ((s.rect.w / 2 : Nat) : Int) ∧
      (s.set_position p).rect.y = p.y - ((s.rect.h / 2 : Nat) : Int) ∧
      (s.set_position p).position = p := by
  intro s d p
  refine ⟨rfl, rfl, rfl, ?_, rfl, rfl, ?_⟩
  · show s.rect.y - (-4) = s.rect.y + 4
    omega
  · cases p with
    | mk px py =>
      simp only [Sprite.set_position, Sprite.position, Rect.center_on, Rect.center,
        Vec2Int.mk.injEq]
      omega

/-- C5: the point check uses the single threshold `max(width, height) ^ 2`,
returns `false` when the squared x- or y-distance from the sprite's center to
the point exceeds it, and returns `true` unconditionally otherwise — it is
exactly the two-axis bounding test, with no point-in-rectangle test. -/
theorem C5_point_check_radius_only :
    ∀ (s : Sprite) (p : Vec2Int),
      check_for_collision_with_point s p = true ↔
        ((s.position.x - p.x) ^ 2 ≤ ((max s.rect.width s.rect.height : Nat) : Int) ^ 2 ∧
         (s.position.y - p.y) ^ 2 ≤ ((max s.rect.width s.rect.height : Nat) : Int) ^ 2) := by
  intro s p
  simp only [check_for_collision_with_point, pow_two]
  split_ifs with h1 h2
  · simp only [Bool.false_eq_true, false_iff]
    exact fun h => absurd h.1 (not_le.mpr h1)
  · simp only [Bool.false_eq_true, false_iff]
    exact fun h => absurd h.2 (not_le.mpr h2)
  · exact iff_of_true rfl ⟨le_of_not_lt h1, le_of_not_lt h2⟩

/-- C6: the collection check returns exactly the members of the collection
that the pairwise check reports as colliding with the queried sprite, in
collection-iteration order (a sublist of the collection), with no
self-exclusion logic, and returns `[]` on the empty collection. -/
theorem C6_collection_check_is_filter :
    ∀ (s : Sprite) (c : SpriteCollection),
      check_for_collision_with_collection s c =
        c.inner.filter (fun t => check_for_collision s t) ∧
      List.Sublist (check_for_collision_with_collection s c) c.inner ∧
      (∀ t : Sprite, t ∈ check_for_collision_with_collection s c ↔
        t ∈ c.inner ∧ check_for_collision s t = true) ∧
      check_for_collision_with_collection s (SpriteCollection.mk []) = [] := by
  intro s c
  refine ⟨rfl, List.filter_sublist _, ?_, rfl⟩
  intro t
  exact List.mem_filter

/-- C7: the pairwise collision check is symmetric. -/
theorem C7_collision_symmetric :
    ∀ a b : Sprite, check_for_collision a b = check_for_collision b a := by
  intro a b
  have h1 := collided_iff_overlap a b
  have h2 := collided_iff_overlap b a
  have hsym : Rect.overlap a.rect b.rect ↔ Rect.overlap b.rect a.rect := by
    unfold Rect.overlap
    tauto
  simp only [check_for_collision]
  cases hab : collided a b <;> cases hba : collided b a <;> simp_all

/-! ### Theorems for the collection claims -/

/-- `listRemoveAt` signals the out-of-bounds panic exactly on out-of-range
indices. -/
lemma listRemoveAt_eq_none (l : List Sprite) (n : Nat) :
    listRemoveAt l n = none ↔ l.length ≤ n := by
  induction l generalizing n with
  | nil => simp [listRemoveAt]
  | cons x xs ih =>
    cases n with
    | zero => simp [listRemoveAt]
    | succ n =>
      simp only [listRemoveAt, List.length_cons]
      cases h : listRemoveAt xs n with
      | none =>
        have := (ih n).mp h
        simp only []
        constructor
        · intro _; omega
        · intro _; trivial
      | some p =>
        have hlt : ¬ xs.length ≤ n := fun hle => by
          rw [(ih n).mpr hle] at h
          cases h
        constructor
        · intro hc; cases hc
        · intro hle; omega

/-- `listRemoveAt` on an in-range index removes and returns the element at
that index, shifting the later elements left by one. -/
lemma listRemoveAt_eq_some (l : List Sprite) (n : Nat) (h : n < l.length) :
    listRemoveAt l n = some (l.get ⟨n, h⟩, l.take n ++ l.drop (n + 1)) := by
  induction l generalizing n with
  | nil => simp at h
  | cons x xs ih =>
    cases n with
    | zero => simp [listRemoveAt]
    | succ n =>
      have hn : n < xs.length := by
        simpa using Nat.lt_of_succ_lt_succ h
      simp only [listRemoveAt, ih n hn]
      simp [List.take, List.drop]

/-- C9: removing at an out-of-range index is the panic (`none`), never a
clamp or a silent no-op; removing at an in-range index removes and returns
that element, shifting all later elements left by one. -/
theorem C9_remove_panics_or_shifts :
    ∀ (c : SpriteCollection) (index : Nat),
      (c.remove index = none ↔ c.v.length ≤ index) ∧
      (∀ h : index < c.v.length,
        c.remove index =
          some (c.v.get ⟨index, h⟩,
            SpriteCollection.mk (c.v.take index ++ c.v.drop (index + 1)))) := by
  intro c index
  constructor
  · simp only [SpriteCollection.remove]
    cases h : listRemoveAt c.v index with
    | none =>
      simpa using (listRemoveAt_eq_none c.v index).mp h
    | some p =>
      obtain ⟨y, ys⟩ := p
      have : ¬ c.v.length ≤ index := fun hle => by
        rw [(listRemoveAt_eq_none c.v index).mpr hle] at h
        cases h
      simpa using this
  · intro h
    simp only [SpriteCollection.remove, listRemoveAt_eq_some c.v index h]

/-- Witness for C9: removing index 1 from a three-sprite collection returns
the middle sprite and shifts the last one left. -/
theorem C9_remove_panics_or_shifts_witness :
    1 < ([sampleSprite0, sampleSprite1, sampleSprite2] : List Sprite).length ∧
    (SpriteCollection.mk [sampleSprite0, sampleSprite1, sampleSprite2]).remove 1 =
      some (sampleSprite1, SpriteCollection.mk [sampleSprite0, sampleSprite2]) := by
  have h : 1 < ([sampleSprite0, sampleSprite1, sampleSprite2] : List Sprite).length := by
    simp
  have hr :=
    (C9_remove_panics_or_shifts
      (SpriteCollection.mk [sampleSprite0, sampleSprite1, sampleSprite2]) 1).2 h
  exact ⟨h, by rw [hr]; rfl⟩

/-- C10: `pop` returns `None` exactly on the empty collection; on a nonempty
collection it removes and returns the last element, leaving the earlier
elements and their order unchanged. -/
theorem C10_pop_last :
    ∀ c : SpriteCollection,
      (c.pop = none ↔ c.v = []) ∧
      (c.v ≠ [] → ∃ x, c.pop = some (x, SpriteCollection.mk c.v.dropLast) ∧
        c.v = c.v.dropLast ++ [x]) := by
  intro c
  constructor
  · simp only [SpriteCollection.pop]
    cases hv : c.v with
    | nil => simp
    | cons x xs =>
      have hne : x :: xs ≠ ([] : List Sprite) := by simp
      rw [List.getLast?_eq_getLast _ hne]
      simp
  · intro hne
    refine ⟨c.v.getLast hne, ?_, (List.dropLast_append_getLast hne).symm⟩
    simp only [SpriteCollection.pop, List.getLast?_eq_getLast c.v hne]

/-- Witness for C10: popping a two-sprite collection returns the second
sprite and keeps the first in place. -/
theorem C10_pop_last_witness :
    ([sampleSprite0, sampleSprite1] : List Sprite) ≠ [] ∧
    (SpriteCollection.mk [sampleSprite0, sampleSprite1]).pop =
      some (sampleSprite1, SpriteCollection.mk [sampleSprite0]) := by
  have hne : ([sampleSprite0, sampleSprite1] : List Sprite) ≠ [] := by simp
  obtain ⟨x, hpop, hdecomp⟩ := (C10_pop_last ⟨[sampleSprite0, sampleSprite1]⟩).2 hne
  have hx : x = sampleSprite1 := by
    simpa using hdecomp.symm
  rw [hx] at hpop
  exact ⟨hne, hpop⟩

end CatBox
